import Mathlib

/-!
Verification of the tag-based chatbot engine in `oxycsbot.py`.

The source is a single Python file containing a generic engine class
(`ChatBot`: tag matcher `_get_tags`, table validation `_check_tags`,
state validation `_check_states`, the transition primitives `go_to_state`
and `finish`, and the dispatcher `respond`) and one concrete dialogue
script (`oxycsbot`). This file gives a shallow embedding of those parts
and proves properties stated about them.

Modelling conventions:
* Python strings are Lean `String`s; character-level work uses `List Char`.
* Python exceptions (a failed `assert`, an `AttributeError` from `getattr`,
  an `IndexError`) are modelled by an `Option`/`none` result. Methods that
  mutate `self.state` return `Option String × Chat`: the response (or
  `none` when an exception escapes) together with the object state after
  the call, so that "the exception leaves the state unchanged" is
  expressible.
* `collections.Counter` is modelled by the multiset of added tags as a
  `List String`; the count of a tag is `List.count`, membership (`'t' in
  tags`) is `List.contains`. `Counter.update` only ever adds keys with
  positive multiplicity, so this is faithful.
* `getattr(self, name)` lookups of dynamically named methods are modelled
  by `String → Option _` fields of a `BotClass` record; a `none` result is
  the `AttributeError`.
-/

namespace OxyCSBot

/-! ### The tag matcher (`ChatBot._get_tags`, source lines 144-156)

`_get_tags` runs `re.search(r'\b' + phrase.lower() + r'\b', message.lower())`
for each table phrase. The phrase is spliced into the pattern *without*
`re.escape`, so the phrase text is interpreted as a regular expression.
We embed the fragment of Python's regex language that the spliced phrases
can exercise here: literal characters and the `?` quantifier applied to the
preceding literal (the only metacharacter occurring in this repository's
table, in the key `'whats up?'`), surrounded by the two `\b` word-boundary
assertions added by the code. Other metacharacters do not occur in the
repository's table and are outside the model. -/

/-- Python's `\w` for the ASCII range: letters, digits and underscore
(`re` is Unicode-aware, but every phrase and message in this development
is ASCII). -/
def isWordChar (c : Char) : Bool := c.isAlphanum || c == '_'

/-- Word-character test through an `Option`: `none` stands for "beyond the
end of the string", which `\b` treats as a non-word character. -/
def isWordOpt : Option Char → Bool
  | none => false
  | some c => isWordChar c

/-- The `\b` word-boundary assertion between an adjacent pair of
(possibly absent) characters. -/
def boundary (a b : Option Char) : Bool := isWordOpt a != isWordOpt b

/-- Compile the spliced phrase text into a list of atoms: each atom is a
character together with a flag recording whether a `?` quantifier made it
optional. Mirrors how `re` parses the pattern fragment between the two
`\b` anchors for the phrases occurring in this repository. -/
def compile : List Char → List (Char × Bool)
  | [] => []
  | c :: '?' :: rest => (c, true) :: compile rest
  | c :: rest => (c, false) :: compile rest

/-- Does the atom list, followed by the closing `\b`, match a prefix of
`s`?  `prev` is the character immediately before the current position
(`none` at the start of the subject), needed by the `\b` assertion. -/
def matchHere : List (Char × Bool) → Option Char → List Char → Bool
  | [], prev, s => boundary prev s.head?
  | (_, opt) :: rest, prev, [] => opt && matchHere rest prev []
  | (c, opt) :: rest, prev, x :: xs =>
      (x == c && matchHere rest (some x) xs) || (opt && matchHere rest prev (x :: xs))

/-- `re.search` of the pattern `\b<atoms>\b` over the subject: try every
start position, including the position after the last character. -/
def searchFrom (atoms : List (Char × Bool)) : Option Char → List Char → Bool
  | prev, [] => boundary prev none && matchHere atoms prev []
  | prev, x :: xs =>
      (boundary prev (some x) && matchHere atoms prev (x :: xs)) || searchFrom atoms (some x) xs

/-- `str.lower` on the character list (ASCII case mapping, which covers
every string in this repository). -/
def pyLower (s : List Char) : List Char := s.map Char.toLower

/-- One table probe of `_get_tags`:
`re.search(r'\b' + phrase.lower() + r'\b', message.lower())` is truthy. -/
def phraseMatch (phrase message : String) : Bool :=
  searchFrom (compile (pyLower phrase.toList)) none (pyLower message.toList)

/-- `ChatBot._get_tags` (lines 144-156): walk the (normalized) tag table in
order; for each phrase whose pattern is found in the lowered message, add
every tag associated with that phrase to the counter once. The returned
list is the multiset of additions performed on the `Counter`. -/
def _get_tags : List (String × List String) → String → List String
  | [], _ => []
  | (phrase, tags) :: rest, message =>
      (if phraseMatch phrase message then tags else []) ++ _get_tags rest message

/-! ### Tag-table validation (`ChatBot._check_tags`, source lines 75-86)

The raw `TAGS` dictionary maps phrases to arbitrary Python values; we model
the value universe by `PyVal`, with enough constructors to distinguish the
shapes `_check_tags` branches on (`str`, `list`, `tuple`) from everything
else. -/

/-- A Python value as it can appear in a `TAGS` table. -/
inductive PyVal where
  | pystr : String → PyVal
  | pylist : List PyVal → PyVal
  | pytuple : List PyVal → PyVal
  | pyint : Int → PyVal
  | pynone : PyVal

/-- The in-place rewrite `self.TAGS[phrase] = [tags]` applied to `str`
values (lines 79-80): a bare string becomes a one-element list. -/
def normalizeVal : PyVal → PyVal
  | .pystr s => .pylist [.pystr s]
  | v => v

/-- `isinstance(tags, (tuple, list))` (line 82). -/
def isSeq : PyVal → Bool
  | .pylist _ => true
  | .pytuple _ => true
  | _ => false

/-- `ChatBot._check_tags` (lines 75-86): for every phrase, wrap a bare
string value into a one-element list, then `assert` that the (rewritten)
value is a tuple or list. A failed `assert` raises (`none`); otherwise the
rewritten table is returned. -/
def _check_tags : List (String × PyVal) → Option (List (String × PyVal))
  | [] => some []
  | (phrase, v) :: rest =>
      let v' := normalizeVal v
      if isSeq v' then (_check_tags rest).map (fun r => (phrase, v') :: r) else none

/-! ### Engine state, hooks and the transition primitives
(`ChatBot.go_to_state` / `finish` / `respond`, source lines 88-142) -/

/-- The mutable part of a `ChatBot` instance: `self.default_state` and
`self.state` (lines 54-55). -/
structure Chat where
  default_state : String
  state : String
deriving DecidableEq, Repr

/-- The body of an `on_enter_*` hook. In the source every entry hook
either returns a string literal or returns `self.finish(manner)`
(`on_enter_unknown_benefit_1` / `_2`), so entry hooks are one of these two
shapes. -/
inductive EntryBody where
  | retStr : String → EntryBody
  | doFinish : String → EntryBody
deriving DecidableEq, Repr

/-- The terminal action of a `respond_from_*` hook: per the class contract
(docstring lines 26-30) a response hook always returns via
`self.go_to_state(..)` or `self.finish(..)`; the choice may depend on the
message and tags, which is the function part of the hook. -/
inductive RespBody where
  | doGoto : String → RespBody
  | doFinish : String → RespBody
deriving DecidableEq, Repr

/-- The immutable part of a bot: the declared states, the (normalized) tag
table, and the three families of dynamically named methods that
`getattr` can find (`on_enter_<state>`, `respond_from_<state>`,
`finish_<manner>`). `none` models the absence of the attribute. -/
structure BotClass where
  STATES : List String
  TAGS : List (String × List String)
  onEnterHooks : String → Option EntryBody
  respondHooks : String → Option (String → List String → RespBody)
  finishHooks : String → Option String

/-- `ChatBot.finish` (lines 132-142): `getattr(self, 'finish_' + manner)()`
— an unknown manner raises `AttributeError` before any mutation — then
`self.state = self.default_state`, then return the hook's string. -/
def finish (B : BotClass) (manner : String) (c : Chat) : Option String × Chat :=
  match B.finishHooks manner with
  | none => (none, c)
  | some r => (some r, { c with state := c.default_state })

/-- Run an entry-hook body (a string literal, or a delegated
`self.finish(manner)` call). -/
def runEntry (B : BotClass) : EntryBody → Chat → Option String × Chat
  | .retStr s, c => (some s, c)
  | .doFinish m, c => finish B m c

/-- `ChatBot.go_to_state` (lines 88-104): `assert state in self.STATES`,
then `assert state != self.default_state`, then look up and run
`on_enter_<state>`, then `self.state = state`, then return the hook's
string. Each failure point raises before the assignment. -/
def go_to_state (B : BotClass) (target : String) (c : Chat) : Option String × Chat :=
  if target ∈ B.STATES then
    if target = c.default_state then (none, c)
    else
      match B.onEnterHooks target with
      | none => (none, c)
      | some body =>
          match runEntry B body c with
          | (none, c') => (none, c')
          | (some resp, c') => (some resp, { c' with state := target })
  else (none, c)

/-- Run a response-hook body: the delegated `go_to_state` or `finish`
call whose value the hook returns. -/
def runResp (B : BotClass) : RespBody → Chat → Option String × Chat
  | .doGoto s, c => go_to_state B s c
  | .doFinish m, c => finish B m c

/-- `ChatBot.respond` (lines 122-130): look up
`respond_from_<self.state>` — a missing hook raises `AttributeError` —
then call it with the message and `self._get_tags(message)`. -/
def respond (B : BotClass) (message : String) (c : Chat) : Option String × Chat :=
  match B.respondHooks c.state with
  | none => (none, c)
  | some h => runResp B (h message (_get_tags B.TAGS message)) c

/-! ### Construction
(`ChatBot.__init__` / `_check_states`, source lines 43-73)

Warnings are `print`ed by the source; we collect the printed warning
strings in order. A raised exception during `__init__` (the `IndexError`
from `self.STATES[0]` on an empty state list, or the `assert` in
`_check_tags`) makes construction fail: `none`. -/

/-- The warning printed on lines 49-53 when the default state is not
declared (`' '.join` of the three pieces). -/
def default_warning (default_state s0 : String) : String :=
  "WARNING: The default state " ++ default_state ++
    " is listed as a state. Perhaps you mean " ++ s0 ++ "?"

/-- The warning printed on lines 69-73 for a state whose hook named
`<pfx>_<state>` is missing. -/
def state_warning (pfx state : String) : String :=
  "WARNING: State \"" ++ state ++ "\" is defined but has no response function self." ++
    pfx ++ "_" ++ state

/-- `ChatBot._check_states` (lines 60-73): for every declared state, warn
about a missing `on_enter_<state>` (unless it is the default state) and
about a missing `respond_from_<state>`. Returns the warnings in print
order; never fails. `hasOn`/`hasResp` are the `hasattr` tests for the two
hook families. -/
def _check_states (STATES : List String) (default_state : String)
    (hasOn hasResp : String → Bool) : List String :=
  STATES.flatMap fun s =>
    (if s != default_state && !hasOn s then [state_warning "on_enter" s] else []) ++
    (if !hasResp s then [state_warning "respond_from" s] else [])

/-- `ChatBot.__init__` (lines 43-58): if the default state is undeclared,
print the warning mentioning `self.STATES[0]` — which raises `IndexError`
when `STATES` is empty — then set `self.default_state` and `self.state`
to the default, run `_check_states` (warnings only) and `_check_tags`
(which can raise). Result: the printed warnings, the rewritten tag table
and the initial `Chat` state; `none` when an exception escapes. -/
def chatbot_init (STATES : List String) (TAGS : List (String × PyVal))
    (hasOn hasResp : String → Bool) (default_state : String) :
    Option (List String × List (String × PyVal) × Chat) :=
  if default_state ∈ STATES then
    match _check_tags TAGS with
    | none => none
    | some TAGS' =>
        some (_check_states STATES default_state hasOn hasResp, TAGS',
          ⟨default_state, default_state⟩)
  else
    match STATES with
    | [] => none
    | s0 :: _ =>
        match _check_tags TAGS with
        | none => none
        | some TAGS' =>
            some (default_warning default_state s0 ::
                _check_states STATES default_state hasOn hasResp, TAGS',
              ⟨default_state, default_state⟩)

/-! ### The concrete dialogue script (`oxycsbot`, source lines 158-344)

The `TAGS` dictionary literal of the source repeats several keys
(`'okay'`, `'yes'`, `'no'`, `'nope'`); per Python semantics a duplicated
key keeps its first insertion position with the last assigned value, and
the list below is that effective dictionary, in iteration order. Every
value is a bare string, so the normalized table maps each phrase to the
one-element list of its tag. -/

def oxySTATES : List String :=
  ["waiting", "thoughts_1", "thoughts_2", "increase_reason_1",
   "increase_reason_2", "unknown_benefit_1", "unknown_benefit_2"]

def oxyTAGS : List (String × List String) :=
  [("Hello", ["hello"]), ("hey", ["hello"]), ("hi", ["hello"]),
   ("what'sup", ["hello"]), ("whats up", ["hello"]), ("whats up?", ["hello"]),
   ("hello", ["hello"]),
   ("thanks", ["thanks"]), ("okay", ["yes"]), ("bye", ["success"]),
   ("yes", ["yes"]), ("yep", ["yes"]), ("no", ["no"]), ("nope", ["no"]),
   ("ok", ["yes"]), ("sounds good", ["yes"]), ("all right", ["yes"]),
   ("very well", ["yes"]), ("of course", ["yes"]), ("by all means", ["yes"]),
   ("sure", ["yes"]), ("certainly", ["yes"]), ("absolutely", ["yes"]),
   ("indeed", ["yes"]), ("right", ["yes"]), ("affirmative", ["yes"]),
   ("agreed", ["yes"]),
   ("absolutely not", ["no"]), ("most certainly not", ["no"]),
   ("of course not", ["no"]), ("under no circumstances", ["no"]),
   ("by no means", ["no"]), ("not at all", ["no"]), ("negative", ["no"]),
   ("never", ["no"]), ("not really", ["no"])]

/-- The `on_enter_*` methods (lines 249-323): four return string
literals; `on_enter_unknown_benefit_1` and `on_enter_unknown_benefit_2`
return `self.finish('confused')`. -/
def oxyOnEnter : String → Option EntryBody := fun s =>
  if s = "thoughts_1" then
    some (.retStr "Hello boss, I would like to discuss increasing my salary. Can I discuss this with you?")
  else if s = "increase_reason_1" then
    some (.retStr "I believe that I deserve an increase in salary because for the past year I have consistently submit top quality work benefitting the company image and stock value. So what do you think?")
  else if s = "thoughts_2" then
    some (.retStr "Ok, then can I please discuss more paid time off?")
  else if s = "increase_reason_2" then
    some (.retStr "I believe I have worked without taking any paid time off for the past 6 months and produced top quality work consistently so I think a little break would be nice. What do you think about this?")
  else if s = "unknown_benefit_1" then some (.doFinish "confused")
  else if s = "unknown_benefit_2" then some (.doFinish "confused")
  else none

/-- The `respond_from_*` methods (lines 238-325): each inspects tag
membership and returns via `go_to_state` or `finish`. -/
def oxyRespond : String → Option (String → List String → RespBody) := fun s =>
  if s = "waiting" then
    some fun _ tags =>
      if tags.contains "hello" then .doGoto "thoughts_1" else .doFinish "hello"
  else if s = "thoughts_1" then
    some fun _ tags =>
      if tags.contains "yes" then .doGoto "increase_reason_1"
      else if tags.contains "no" then .doGoto "thoughts_2"
      else .doGoto "unknown_benefit_1"
  else if s = "increase_reason_1" then
    some fun _ tags =>
      if tags.contains "yes" then .doFinish "success"
      else if tags.contains "no" then .doGoto "thoughts_2"
      else .doGoto "unknown_benefit_1"
  else if s = "thoughts_2" then
    some fun _ tags =>
      if tags.contains "yes" then .doGoto "increase_reason_2"
      else if tags.contains "no" then .doFinish "reject"
      else .doGoto "unknown_benefit_2"
  else if s = "increase_reason_2" then
    some fun _ tags =>
      if tags.contains "yes" then .doFinish "success"
      else if tags.contains "no" then .doFinish "reject"
      else .doGoto "unknown_benefit_2"
  else if s = "unknown_benefit_1" then
    some fun _ tags =>
      if tags.contains "yes" then .doGoto "increase_reason_1" else .doFinish "fail"
  else if s = "unknown_benefit_2" then
    some fun _ tags =>
      if tags.contains "yes" then .doGoto "increase_reason_2" else .doFinish "fail"
  else none

/-- The `finish_*` methods (lines 331-344). -/
def oxyFinish : String → Option String := fun m =>
  if m = "confused" then
    some "I am sorry I do not understand what you are saying. Could we please get back to the topic at hand?"
  else if m = "hello" then
    some "I am sorry I do not understand. Can you please say hello"
  else if m = "success" then some "Great, thank you so much!"
  else if m = "fail" then
    some "I am sorry, I still do not understand what you are trying to say. Maybe we can discuss this again at a later point."
  else if m = "reject" then some "Ok, I understand. Thank you for your time."
  else none

/-- The `oxycsbot` instance with its normalized table. -/
def oxyBot : BotClass :=
  ⟨oxySTATES, oxyTAGS, oxyOnEnter, oxyRespond, oxyFinish⟩

/-! ### Helper lemmas shared by the claim theorems -/

/-- A failing entry hook (its delegated `finish` call raised) leaves the
state untouched. -/
theorem runEntry_fail_frame (B : BotClass) (body : EntryBody) (c : Chat)
    (h : (runEntry B body c).1 = none) : (runEntry B body c).2 = c := by
  cases body with
  | retStr s => simp [runEntry] at h
  | doFinish m =>
      simp only [runEntry, finish] at h ⊢
      cases hf : B.finishHooks m with
      | none => simp [hf]
      | some r => rw [hf] at h; simp at h

/-- Exhaustive behaviour of `go_to_state`: either some check or the hook
raised and the call returns `none` with the state untouched, or both
asserts passed, the entry hook ran successfully and the state became the
target. -/
theorem go_to_state_cases (B : BotClass) (target : String) (c : Chat) :
    go_to_state B target c = (none, c) ∨
    ∃ body resp c', B.onEnterHooks target = some body ∧
      runEntry B body c = (some resp, c') ∧ target ∈ B.STATES ∧
      target ≠ c.default_state ∧
      go_to_state B target c = (some resp, { c' with state := target }) := by
  unfold go_to_state
  split
  next hm =>
    split
    next hd => exact Or.inl rfl
    next hd =>
      split
      next hh => exact Or.inl rfl
      next body hh =>
        split
        next c' he =>
          have h2 := runEntry_fail_frame B body c (by rw [he])
          rw [he] at h2
          simp only at h2
          exact Or.inl (by rw [h2])
        next resp c' he =>
          exact Or.inr ⟨body, resp, c', hh, he, hm, hd, rfl⟩
  next hm => exact Or.inl rfl

/-- A `go_to_state` call that raises leaves the state untouched. -/
theorem go_to_state_fail_frame (B : BotClass) (target : String) (c : Chat)
    (h : (go_to_state B target c).1 = none) : (go_to_state B target c).2 = c := by
  rcases go_to_state_cases B target c with hc | ⟨body, resp, c', _, _, _, _, hc⟩
  · rw [hc]
  · rw [hc] at h
    simp at h

/-- A `finish` call that raises (unknown manner) leaves the state
untouched. -/
theorem finish_fail_frame (B : BotClass) (manner : String) (c : Chat)
    (h : (finish B manner c).1 = none) : (finish B manner c).2 = c := by
  simp only [finish] at h ⊢
  cases hf : B.finishHooks manner with
  | none => simp [hf]
  | some r => rw [hf] at h; simp at h

/-- A successful `go_to_state` ends in exactly its target, and that target
passed both asserts: it is declared and is not the default state. -/
theorem go_to_state_success (B : BotClass) (target : String) (c : Chat)
    (r : String) (c' : Chat) (h : go_to_state B target c = (some r, c')) :
    c'.state = target ∧ target ∈ B.STATES ∧ target ≠ c.default_state := by
  rcases go_to_state_cases B target c with hc | ⟨body, resp, e, _, _, hm, hd, hc⟩
  · rw [hc] at h
    simp at h
  · rw [hc] at h
    injection h with h1 h2
    rw [← h2]
    exact ⟨rfl, hm, hd⟩

/-- `finish` either leaves the state unchanged (when it raises) or sets it
to the default state; it never moves the state anywhere else. -/
theorem finish_state_cases (B : BotClass) (manner : String) (c : Chat) :
    (finish B manner c).2.state = c.state ∨
    (finish B manner c).2.state = c.default_state := by
  simp only [finish]
  cases hf : B.finishHooks manner with
  | none => left; rfl
  | some r => right; rfl

/-- `_get_tags` distributes over table concatenation. -/
theorem get_tags_append (a b : List (String × List String)) (m : String) :
    _get_tags (a ++ b) m = _get_tags a m ++ _get_tags b m := by
  induction a with
  | nil => rfl
  | cons e rest ih =>
      obtain ⟨p, ts⟩ := e
      simp [_get_tags, ih, List.append_assoc]

/-! ### Claim theorems -/

/-- C1: For every engine and every manner string with a registered
completion hook, `finish manner` invokes the `finish_<manner>` hook (no
arguments), sets the current state to the default state — whatever state
preceded the call — and returns the string produced by the hook. -/
theorem finish_invokes_hook_and_resets (B : BotClass) (manner r : String) (c : Chat)
    (hhook : B.finishHooks manner = some r) :
    finish B manner c = (some r, { c with state := c.default_state }) := by
  simp [finish, hhook]

/-- Witness for C1 on the concrete `oxycsbot`: finishing with manner
`success` from state `thoughts_2` returns `finish_success`'s text and
resets the state to the default `waiting`. -/
theorem finish_invokes_hook_and_resets_witness :
    finish oxyBot "success" ⟨"waiting", "thoughts_2"⟩ =
      (some "Great, thank you so much!", ⟨"waiting", "waiting"⟩) :=
  finish_invokes_hook_and_resets oxyBot "success" "Great, thank you so much!"
    ⟨"waiting", "thoughts_2"⟩ rfl

/-- C2: For every engine and every current state, `go_to_state target` is
rejected — it raises and leaves the current state (indeed the whole
engine state) unchanged — whenever the target is the default state or the
target is not in the declared state list. -/
theorem go_to_state_rejects_default_or_undeclared (B : BotClass) (target : String)
    (c : Chat) (h : target = c.default_state ∨ target ∉ B.STATES) :
    go_to_state B target c = (none, c) := by
  unfold go_to_state
  rcases h with h | h
  · by_cases hm : target ∈ B.STATES
    · simp [hm, h]
    · simp [hm]
  · simp [h]

/-- Witness for C2 on the concrete `oxycsbot`: calling `go_to_state` on
the default state `waiting` from state `thoughts_1` raises and changes
nothing. -/
theorem go_to_state_rejects_default_or_undeclared_witness :
    go_to_state oxyBot "waiting" ⟨"waiting", "thoughts_1"⟩ =
      (none, ⟨"waiting", "thoughts_1"⟩) :=
  go_to_state_rejects_default_or_undeclared oxyBot "waiting"
    ⟨"waiting", "thoughts_1"⟩ (Or.inl rfl)

/-- C3: For every declared non-default target whose entry hook exists
(and whose run returns a string), `go_to_state target` runs the
`on_enter_<target>` hook with no arguments, then sets the current state
to the target, then returns the string the hook produced. Moreover a
successful `go_to_state` always lands exactly on its declared non-default
target, and `finish` never moves the state anywhere but the default
state, so `go_to_state` is the only primitive that sets the current state
to a non-default state. -/
theorem go_to_state_enters_target (B : BotClass) (c c' : Chat)
    (target resp : String) (body : EntryBody)
    (hmem : target ∈ B.STATES) (hne : target ≠ c.default_state)
    (hhook : B.onEnterHooks target = some body)
    (hrun : runEntry B body c = (some resp, c')) :
    go_to_state B target c = (some resp, { c' with state := target }) ∧
    (∀ (t : String) (d : Chat) (r : String) (d' : Chat),
        go_to_state B t d = (some r, d') →
        d'.state = t ∧ t ∈ B.STATES ∧ t ≠ d.default_state) ∧
    (∀ (m : String) (d : Chat),
        (finish B m d).2.state = d.state ∨ (finish B m d).2.state = d.default_state) := by
  refine ⟨?_, fun t d r d' h => go_to_state_success B t d r d' h,
    fun m d => finish_state_cases B m d⟩
  unfold go_to_state
  rw [if_pos hmem, if_neg hne]
  simp only [hhook, hrun]

/-- Witness for C3 on the concrete `oxycsbot`: `go_to_state "thoughts_1"`
from the fresh engine returns `on_enter_thoughts_1`'s text and enters
`thoughts_1`. -/
theorem go_to_state_enters_target_witness :
    go_to_state oxyBot "thoughts_1" ⟨"waiting", "waiting"⟩ =
      (some "Hello boss, I would like to discuss increasing my salary. Can I discuss this with you?",
        ⟨"waiting", "thoughts_1"⟩) :=
  (go_to_state_enters_target oxyBot ⟨"waiting", "waiting"⟩ ⟨"waiting", "waiting"⟩
    "thoughts_1"
    "Hello boss, I would like to discuss increasing my salary. Can I discuss this with you?"
    (.retStr "Hello boss, I would like to discuss increasing my salary. Can I discuss this with you?")
    (by decide) (by decide) rfl rfl).1

/-- C4: For every engine whose current state has a registered response
hook, `respond message` invokes exactly the `respond_from_<current
state>` hook, passing it the message and the tag multiset computed by the
matcher for that message; and after a successful `go_to_state s`, the
next `respond` dispatches through `s`'s response hook. -/
theorem respond_dispatches_current_state (B : BotClass) (c : Chat) (msg : String)
    (h : String → List String → RespBody)
    (hhook : B.respondHooks c.state = some h) :
    respond B msg c = runResp B (h msg (_get_tags B.TAGS msg)) c ∧
    (∀ (s : String) (d : Chat) (r : String) (d' : Chat)
        (h' : String → List String → RespBody) (msg' : String),
        go_to_state B s d = (some r, d') → B.respondHooks s = some h' →
        respond B msg' d' = runResp B (h' msg' (_get_tags B.TAGS msg')) d') := by
  constructor
  · simp [respond, hhook]
  · intro s d r d' h' msg' hgo hs
    have hst : d'.state = s := (go_to_state_success B s d r d' hgo).1
    simp [respond, hst, hs]

/-- Witness for C4, the spec's round-trip scenario on the concrete
`oxycsbot`: in state `waiting`, `respond` runs `respond_from_waiting` on
the message and its tags. -/
theorem respond_dispatches_current_state_witness :
    respond oxyBot "Hello there" ⟨"waiting", "waiting"⟩ =
      runResp oxyBot
        ((fun _ tags =>
            if tags.contains "hello" then RespBody.doGoto "thoughts_1"
            else RespBody.doFinish "hello")
          "Hello there" (_get_tags oxyBot.TAGS "Hello there"))
        ⟨"waiting", "waiting"⟩ :=
  (respond_dispatches_current_state oxyBot ⟨"waiting", "waiting"⟩ "Hello there"
    (fun _ tags =>
      if tags.contains "hello" then RespBody.doGoto "thoughts_1"
      else RespBody.doFinish "hello") rfl).1

/-- C9: In both `go_to_state` and `finish` the hook runs before the
current state is assigned, so whenever the call raises — an assert, a
failed hook lookup, or a raise inside the hook — the engine state is left
exactly as it was before the call. -/
theorem hooks_run_before_state_assignment (B : BotClass) (target manner : String)
    (c : Chat) :
    ((go_to_state B target c).1 = none → (go_to_state B target c).2 = c) ∧
    ((finish B manner c).1 = none → (finish B manner c).2 = c) :=
  ⟨go_to_state_fail_frame B target c, finish_fail_frame B manner c⟩

/-- Witness for C9 on the concrete `oxycsbot`: a `go_to_state` to an
undeclared state and a `finish` with an unregistered manner both leave
the state `thoughts_1` in place. -/
theorem hooks_run_before_state_assignment_witness :
    (go_to_state oxyBot "bogus" ⟨"waiting", "thoughts_1"⟩).2 =
      ⟨"waiting", "thoughts_1"⟩ ∧
    (finish oxyBot "bogus" ⟨"waiting", "thoughts_1"⟩).2 =
      ⟨"waiting", "thoughts_1"⟩ :=
  ⟨(hooks_run_before_state_assignment oxyBot "bogus" "bogus"
      ⟨"waiting", "thoughts_1"⟩).1 rfl,
   (hooks_run_before_state_assignment oxyBot "bogus" "bogus"
      ⟨"waiting", "thoughts_1"⟩).2 rfl⟩

/-- C5: The claim says a table phrase is counted as matched iff it occurs
in the message literally, punctuation included, with word boundaries only
at its two ends. The code splices the phrase into the regex *unescaped*
(`re.search(r'\b' + phrase.lower() + r'\b', msg)`, line 154), so phrase
punctuation is interpreted as regex syntax. The repository's own table
entry `'whats up?'` exhibits the divergence: its `?` becomes an optional
quantifier on `p`, so the message `"whats u"` — which does not contain
the phrase literally — is counted as a match. The boundary-discipline
half of the claim does hold on word-only phrases: `"hi"` does not match
inside `"this"`. -/
theorem get_tags_unescaped_regex_divergence :
    ("whats up?", ["hello"]) ∈ oxyTAGS ∧
    phraseMatch "whats up?" "whats u" = true ∧
    (¬ ∃ pre post : List Char,
        pyLower "whats u".toList = pre ++ pyLower "whats up?".toList ++ post) ∧
    phraseMatch "hi" "this" = false := by
  refine ⟨by decide, by decide, ?_, by decide⟩
  rintro ⟨pre, post, hsplit⟩
  have hlen := congrArg List.length hsplit
  have h7 : (pyLower "whats u".toList).length = 7 := by decide
  have h9 : (pyLower "whats up?".toList).length = 9 := by decide
  rw [h7, List.length_append, List.length_append, h9] at hlen
  omega

/-- C6: If a phrase `p` mapped to the tag pair `[t1, t2]` matches a
message, then relative to the same table without that entry the counter
gains exactly one occurrence of `t1` and one of `t2`, and that entry
changes no other tag's count. -/
theorem get_tags_increments_each_tag_once (tbl1 tbl2 : List (String × List String))
    (p t1 t2 m : String) (hmatch : phraseMatch p m = true) (hne : t1 ≠ t2) :
    (_get_tags (tbl1 ++ (p, [t1, t2]) :: tbl2) m).count t1
      = (_get_tags (tbl1 ++ tbl2) m).count t1 + 1 ∧
    (_get_tags (tbl1 ++ (p, [t1, t2]) :: tbl2) m).count t2
      = (_get_tags (tbl1 ++ tbl2) m).count t2 + 1 ∧
    ∀ t, t ≠ t1 → t ≠ t2 →
      (_get_tags (tbl1 ++ (p, [t1, t2]) :: tbl2) m).count t
        = (_get_tags (tbl1 ++ tbl2) m).count t := by
  have e1 : _get_tags (tbl1 ++ (p, [t1, t2]) :: tbl2) m
      = _get_tags tbl1 m ++ ([t1, t2] ++ _get_tags tbl2 m) := by
    rw [get_tags_append]
    simp [_get_tags, hmatch]
  have e2 := get_tags_append tbl1 tbl2 m
  refine ⟨?_, ?_, fun t ht1 ht2 => ?_⟩
  · rw [e1, e2]
    simp only [List.count_append]
    have hc : ([t1, t2] : List String).count t1 = 1 := by
      simp [List.count_cons, List.count_nil, beq_iff_eq, hne]
    omega
  · rw [e1, e2]
    simp only [List.count_append]
    have hc : ([t1, t2] : List String).count t2 = 1 := by
      simp [List.count_cons, List.count_nil, beq_iff_eq, Ne.symm hne]
    omega
  · rw [e1, e2]
    simp only [List.count_append]
    have hc : ([t1, t2] : List String).count t = 0 := by
      simp [List.count_cons, List.count_nil, beq_iff_eq, ht1, ht2]
    omega

/-- Witness for C6: the phrase `sure` (tags `yes`, `ok`) matches
`"sure thing"`, and the `yes` count is one more than without that table
entry. -/
theorem get_tags_increments_each_tag_once_witness :
    (_get_tags [("sure", ["yes", "ok"]), ("hi", ["hello"])] "sure thing").count "yes"
      = (_get_tags [("hi", ["hello"])] "sure thing").count "yes" + 1 :=
  (get_tags_increments_each_tag_once [] [("hi", ["hello"])] "sure" "yes" "ok"
    "sure thing" (by decide) (by decide)).1

/-- C10: The matcher registers at most one match per table phrase — the
outcome of `_get_tags` depends on a message only through the Boolean
"does this phrase's pattern occur" answer per phrase, so a phrase
occurring several times in one message contributes exactly what a single
occurrence contributes. -/
theorem get_tags_counts_presence_only (tbl : List (String × List String))
    (m1 m2 : String)
    (h : ∀ e ∈ tbl, phraseMatch e.1 m1 = phraseMatch e.1 m2) :
    _get_tags tbl m1 = _get_tags tbl m2 := by
  induction tbl with
  | nil => rfl
  | cons e rest ih =>
      obtain ⟨p, ts⟩ := e
      simp only [_get_tags]
      rw [show phraseMatch p m1 = phraseMatch p m2 from h ⟨p, ts⟩ (by simp),
        ih fun e he => h e (List.mem_cons_of_mem _ he)]

/-- Witness for C10: `"hi"` occurring three times yields the same counter
as `"hi"` occurring once. -/
theorem get_tags_counts_presence_only_witness :
    _get_tags [("hi", ["hello"])] "hi hi hi" = _get_tags [("hi", ["hello"])] "hi" :=
  get_tags_counts_presence_only [("hi", ["hello"])] "hi hi hi" "hi" (by decide)

/-- C7 counterexample: `_check_tags` accepts the value `[]` (an *empty*
list, so afterwards the phrase maps to an empty tag sequence, not a
non-empty one) and also accepts `[1]` (a list whose element is not a tag
string) without any construction error; both contradict the claim as
stated. -/
theorem check_tags_accepts_empty_and_nonstring :
    _check_tags [("x", PyVal.pylist []), ("y", PyVal.pylist [PyVal.pyint 1])]
      = some [("x", PyVal.pylist []), ("y", PyVal.pylist [PyVal.pyint 1])] ∧
    (¬ ∃ ts : List String, ts ≠ [] ∧
        PyVal.pylist [] = PyVal.pylist (ts.map PyVal.pystr)) ∧
    (¬ ∃ ts : List String,
        PyVal.pylist [PyVal.pyint 1] = PyVal.pylist (ts.map PyVal.pystr)) := by
  refine ⟨rfl, ?_, ?_⟩
  · rintro ⟨ts, hne, heq⟩
    injection heq with hl
    exact hne (List.map_eq_nil_iff.mp hl.symm)
  · rintro ⟨ts, heq⟩
    injection heq with hl
    cases ts with
    | nil => exact List.noConfusion hl
    | cons a as =>
        injection hl with h1 _
        exact PyVal.noConfusion h1

/-- C7 as amended: at construction, every tag-table value that is neither
a string nor a list/tuple causes a fatal construction error, and an
accepted table is rewritten so that every phrase maps to its value with a
bare string normalized to a one-element sequence (the sequence may be
empty and its elements are not themselves checked). -/
theorem check_tags_normalization :
    (∀ tbl : List (String × PyVal),
        _check_tags tbl =
          if tbl.all (fun e => isSeq (normalizeVal e.2))
          then some (tbl.map fun e => (e.1, normalizeVal e.2))
          else none) ∧
    (∀ s : String, normalizeVal (PyVal.pystr s) = PyVal.pylist [PyVal.pystr s]) := by
  refine ⟨fun tbl => ?_, fun s => rfl⟩
  induction tbl with
  | nil => rfl
  | cons e rest ih =>
      obtain ⟨p, v⟩ := e
      simp only [_check_tags, List.all_cons, List.map_cons, ih]
      by_cases hv : isSeq (normalizeVal v)
      · by_cases hr : rest.all (fun e => isSeq (normalizeVal e.2)) <;>
          simp [hv, hr]
      · simp [hv]

/-- C8 counterexample: with an *empty* declared state list and an
undeclared default state, `__init__` raises (`self.STATES[0]` is an
`IndexError`) instead of completing with a warning, so construction does
refuse. -/
theorem init_empty_states_fails :
    ("waiting" ∉ ([] : List String)) ∧
    chatbot_init [] [] (fun _ => false) (fun _ => false) "waiting" = none :=
  ⟨by simp, rfl⟩

/-- C8 as amended: for every *non-empty* declared state list and every
default-state name absent from it, construction (with a well-formed tag
table) prints the warning suggesting the first declared state and still
completes successfully, starting in the nominated default state. -/
theorem init_warns_missing_default (s0 d : String) (rest : List String)
    (TAGS T' : List (String × PyVal)) (hasOn hasResp : String → Bool)
    (hd : d ∉ s0 :: rest) (ht : _check_tags TAGS = some T') :
    chatbot_init (s0 :: rest) TAGS hasOn hasResp d =
      some (default_warning d s0 :: _check_states (s0 :: rest) d hasOn hasResp,
        T', ⟨d, d⟩) := by
  simp [chatbot_init, hd, ht]

/-- Witness for C8 as amended: state list `["a"]` with undeclared default
`idle` constructs, warns `Perhaps you mean a?`, and starts in `idle`. -/
theorem init_warns_missing_default_witness :
    chatbot_init ["a"] [] (fun _ => false) (fun _ => false) "idle" =
      some (default_warning "idle" "a" ::
          _check_states ["a"] "idle" (fun _ => false) (fun _ => false),
        [], ⟨"idle", "idle"⟩) :=
  init_warns_missing_default "a" "idle" [] [] []
    (fun _ => false) (fun _ => false) (by decide) rfl

end OxyCSBot
